import Mathlib

/-!
The GitFather `t` command line translator.

A shallow embedding of `main.go` and `openai.go`.

Go strings are modelled by Lean strings (sequences of code points), byte
slices by strings as well, and Go `error` values by their message.  Everything
the program reaches outside its own two files is a parameter:

* the process environment, `encoding/json`, `net/http` are fields of `World`;
* `readDotEnvIfAvailable` and `readFromSTDIN`, which live in files that are
  not part of the development, are arguments of `main` and `Run`;
* the work `cobra` does on `os.Args` is summarised by `Parsed`.

Every call that matters to the outside is recorded in a trace of `Event`s, so
that "no network call is issued" is a statement about that trace.
-/

namespace TGF

/-! ## Go standard library: `unicode.IsSpace`, `strings.TrimSpace`, `strings.Join` -/

/-- Go `unicode.IsSpace`: the Latin-1 cases tab, line feed, vertical tab, form
feed, carriage return, space, U+0085, U+00A0, and the `White_Space` table
above Latin-1. -/
def isSpace (c : Char) : Bool :=
  let n := c.toNat
  (9 ≤ n && n ≤ 13) || n == 32 || n == 133 || n == 160 ||
  n == 5760 || (8192 ≤ n && n ≤ 8202) || n == 8232 || n == 8233 ||
  n == 8239 || n == 8287 || n == 12288

/-- Go `strings.TrimSpace`: leading white space is removed first, then
trailing white space. -/
def TrimSpace (s : String) : String :=
  ⟨(s.data.dropWhile isSpace).rdropWhile isSpace⟩

/-- Go `strings.Join(elems, sep)`. -/
def Join (elems : List String) (sep : String) : String :=
  sep.intercalate elems

/-- The process environment: `os.LookupEnv`. -/
abbrev Environ := String → Option String

/-- Go `os.Getenv`: the value of the variable, empty when it is unset. -/
def Getenv (environ : Environ) (key : String) : String :=
  (environ key).getD ""

/-! ## `openai.go` -/

/-- The message data of a choice (`ChatResponseV1ChoiceMessage`). -/
structure ChatResponseV1ChoiceMessage where
  Content : String
  Role : String
  deriving DecidableEq, Repr

/-- An item of `Choices` (`ChatResponseV1Choice`). -/
structure ChatResponseV1Choice where
  Message : ChatResponseV1ChoiceMessage
  deriving DecidableEq, Repr

/-- A success response of the chat completions endpoint (`ChatResponseV1`). -/
structure ChatResponseV1 where
  Choices : List ChatResponseV1Choice
  deriving DecidableEq, Repr

def chatCompletionV1Url : String := "https://api.openai.com/v1/chat/completions"

/-- The `userMessage` map: keys `role` and `content`. -/
structure UserMessage where
  role : String
  content : String
  deriving DecidableEq, Repr

/-- The `requestBody` map: keys `model`, `messages` and `temperature`. -/
structure RequestBody where
  model : String
  messages : List UserMessage
  temperature : Int
  deriving DecidableEq, Repr

/-- An `http.Request` as far as the program touches it. -/
structure Request where
  Method : String
  URL : String
  Body : String
  Header : List (String × String)
  deriving DecidableEq, Repr

/-- Go `Header.Set`: replaces the values stored under the key. -/
def Request.setHeader (r : Request) (key value : String) : Request :=
  { r with Header := (r.Header.filter fun kv => kv.1 != key) ++ [(key, value)] }

/-- An `http.Response` as far as the program touches it: the status code and
what `io.ReadAll` on the body would give. -/
structure Response where
  StatusCode : Int
  Body : Except String String

/-- What `translateWithGPT` calls outside the program. -/
structure World where
  /-- the process environment -/
  environ : Environ
  /-- Go `json.Marshal` on the request body -/
  Marshal : RequestBody → Except String String
  /-- Go `http.NewRequest(method, url, body)` -/
  NewRequest : String → String → String → Except String Request
  /-- Go `client.Do(request)` -/
  Do : Request → Except String Response
  /-- Go `json.Unmarshal` into a `ChatResponseV1` -/
  Unmarshal : String → Except String ChatResponseV1

/-- Calls that leave the program, in the order they are made. -/
inductive Event where
  /-- the call `translateWithGPT(textToTranslate, targetLanguage, context)` -/
  | translate (textToTranslate targetLanguage context : String)
  /-- the call `json.Marshal(requestBody)` -/
  | jsonMarshal (requestBody : RequestBody)
  /-- the call `http.NewRequest(method, url, body)` -/
  | newRequest (method url body : String)
  /-- the call `client.Do(request)`: the request is sent -/
  | clientDo (request : Request)
  /-- the call `io.ReadAll(response.Body)` -/
  | readAll
  /-- the call `json.Unmarshal(responseBodyData, &chatResponse)` -/
  | jsonUnmarshal (data : String)
  /-- the deferred `response.Body.Close()` -/
  | bodyClose
  deriving DecidableEq, Repr

/-- How a Go function of type `(string, error)` ends: it returns its pair, or
it panics. -/
inductive Returned where
  | ret (value : String) (err : Option String)
  | panic (msg : String)
  deriving DecidableEq, Repr

/-- The end of a call together with the events it caused. -/
structure Call where
  result : Returned
  trace : List Event
  deriving DecidableEq, Repr

/-- Lines 71-74: the trimmed context, in parentheses when it is not empty. -/
def promptSuffix (context : String) : String :=
  let promptSuffix := TrimSpace context
  if promptSuffix ≠ "" then " (" ++ promptSuffix ++ ")" else promptSuffix

/-- Lines 79-84: the `content` of the user message. -/
def userMessageContent (textToTranslate targetLanguage context : String) : String :=
  "Your only job is to translate the following text to " ++ targetLanguage ++
    " language by keeping its format without assumptions" ++ promptSuffix context ++
    ":" ++ textToTranslate

/-- Lines 93-97: the request body. -/
def requestBody (textToTranslate targetLanguage context : String) : RequestBody :=
  let userMessage : UserMessage :=
    { role := "user", content := userMessageContent textToTranslate targetLanguage context }
  let messages : List UserMessage := [] ++ [userMessage]
  { model := "gpt-3.5-turbo-0125", messages := messages, temperature := 0 }

/-- Lines 113-114: the content type and the key are put into the header. -/
def authorize (request : Request) (OPENAI_API_KEY : String) : Request :=
  let request := request.setHeader "Content-Type" "application/json"
  request.setHeader "Authorization" ("Bearer " ++ OPENAI_API_KEY)

/-- Go run-time panic of an index expression `s[i]` outside `0 <= i < len(s)`. -/
def indexOutOfRange (i len : Nat) : String :=
  "runtime error: index out of range [" ++ toString i ++ "] with length " ++ toString len

/-- The function `translateWithGPT` of `openai.go`. -/
def translateWithGPT (w : World) (textToTranslate targetLanguage context : String) : Call :=
  let OPENAI_API_KEY := TrimSpace (Getenv w.environ "OPENAI_API_KEY")
  if OPENAI_API_KEY = "" then
    ⟨.ret "" (some "missing OPENAI_API_KEY environment variable"), []⟩
  else
    let requestBody := requestBody textToTranslate targetLanguage context
    match w.Marshal requestBody with
    | .error err => ⟨.ret "" (some err), [.jsonMarshal requestBody]⟩
    | .ok jsonData =>
      match w.NewRequest "POST" chatCompletionV1Url jsonData with
      | .error err =>
        ⟨.ret "" (some err),
          [.jsonMarshal requestBody, .newRequest "POST" chatCompletionV1Url jsonData]⟩
      | .ok request =>
        let request := authorize request OPENAI_API_KEY
        let sent : List Event :=
          [.jsonMarshal requestBody, .newRequest "POST" chatCompletionV1Url jsonData,
            .clientDo request]
        match w.Do request with
        | .error err => ⟨.ret "" (some err), sent⟩
        | .ok response =>
          if response.StatusCode ≠ 200 then
            ⟨.ret "" (some ("unexpected status code " ++ toString response.StatusCode)),
              sent ++ [.bodyClose]⟩
          else
            match response.Body with
            | .error err => ⟨.ret "" (some err), sent ++ [.readAll, .bodyClose]⟩
            | .ok responseBodyData =>
              match w.Unmarshal responseBodyData with
              | .error err =>
                ⟨.ret "" (some err),
                  sent ++ [.readAll, .jsonUnmarshal responseBodyData, .bodyClose]⟩
              | .ok chatResponse =>
                match chatResponse.Choices[0]? with
                | none =>
                  ⟨.panic (indexOutOfRange 0 chatResponse.Choices.length),
                    sent ++ [.readAll, .jsonUnmarshal responseBodyData, .bodyClose]⟩
                | some choice =>
                  ⟨.ret choice.Message.Content none,
                    sent ++ [.readAll, .jsonUnmarshal responseBodyData, .bodyClose]⟩

/-! ## `main.go` -/

/-- The two flags that `main` registers. -/
inductive FlagName where
  | context
  | language
  deriving DecidableEq, Repr

/-- The variables `context` and `language` declared in `main`. -/
structure Vars where
  context : String
  language : String
  deriving DecidableEq, Repr

/-- One flag given on the command line is stored.  Line 96 registers
`--context` / `-c` with `&language`, line 97 registers `--language` / `-l` with
`&language`. -/
def setFlag (vars : Vars) : FlagName × String → Vars
  | (.context, value) => { vars with language := value }
  | (.language, value) => { vars with language := value }

/-- What `rootCmd.Execute()` makes of `os.Args`. -/
inductive Parsed where
  /-- the case that `Execute` returns an error (unknown flag, missing flag value, ...) -/
  | error (err : String)
  /-- the case that `Execute` answers by itself (`--help`) and returns no error; `Run` is not called -/
  | noRun (output : String)
  /-- the flags in the order given, and the positional arguments handed to `Run` -/
  | run (flags : List (FlagName × String)) (args : List String)
  deriving DecidableEq, Repr

/-- How the process ends: exit code, what was written to standard output, and
the calls made. -/
structure Outcome where
  exitCode : Nat
  stdout : String
  trace : List Event
  deriving DecidableEq, Repr

/-- The `Run` function of `rootCmd` (lines 60-92).  `readFromSTDIN` is what the
call `readFromSTDIN()` returns.  A panic that nobody recovers ends a Go
process with exit code 2. -/
def Run (w : World) (TGF_DEFAULT_LANGUAGE readFromSTDIN : String) (vars : Vars)
    (args : List String) : Outcome :=
  let targetLanguage := TrimSpace vars.language
  let targetLanguage := if targetLanguage = "" then TGF_DEFAULT_LANGUAGE else targetLanguage
  let textToTranslate := ""
  let textToTranslate := textToTranslate ++ Join args " "
  let textToTranslate := textToTranslate ++ readFromSTDIN
  if TrimSpace textToTranslate = "" then
    ⟨3, "no valid text to translate\n", []⟩
  else
    let call := translateWithGPT w textToTranslate targetLanguage vars.context
    let trace := Event.translate textToTranslate targetLanguage vars.context :: call.trace
    match call.result with
    | .panic _ => ⟨2, "", trace⟩
    | .ret _ (some err) => ⟨4, "could not translate text: " ++ err, trace⟩
    | .ret translatedText none => ⟨0, translatedText, trace⟩

/-- The function `main` of `main.go`.  `readDotEnvIfAvailable` maps the process
environment to the error it returns or to the environment it leaves behind. -/
def main (w : World) (readDotEnvIfAvailable : Environ → Except String Environ)
    (readFromSTDIN : String) (parsed : Parsed) : Outcome :=
  match readDotEnvIfAvailable w.environ with
  | .error err => ⟨2, err ++ "\n", []⟩
  | .ok environ =>
    let w : World := { w with environ := environ }
    let TGF_DEFAULT_LANGUAGE := TrimSpace (Getenv w.environ "TGF_DEFAULT_LANGUAGE")
    let TGF_DEFAULT_LANGUAGE :=
      if TGF_DEFAULT_LANGUAGE = "" then "english" else TGF_DEFAULT_LANGUAGE
    let vars : Vars := { context := "", language := "" }
    match parsed with
    | .error err => ⟨1, err ++ "\n", []⟩
    | .noRun output => ⟨0, output, []⟩
    | .run flags args =>
      Run w TGF_DEFAULT_LANGUAGE readFromSTDIN (flags.foldl setFlag vars) args

/-! ## An instance of `json.Unmarshal`

The theorems below hold for every `World`.  To run the program on a concrete
response body, this section gives one `Unmarshal`: a JSON reader after Go
`encoding/json` (the text is checked and read as one JSON value, then stored
into a `ChatResponseV1` field by field; keys are compared without regard to
case, unknown keys are skipped, `null` leaves a field as it is).  The texts of
its errors are shortened. -/

/-- A JSON value. -/
inductive JSON where
  | null
  | bool (b : Bool)
  | number (literal : String)
  | string (s : String)
  | array (items : List JSON)
  | object (members : List (String × JSON))

/-- JSON white space: space, tab, line feed, carriage return. -/
def isJSONSpace (c : Char) : Bool :=
  c.toNat == 32 || c.toNat == 9 || c.toNat == 10 || c.toNat == 13

def skipSpace (cs : List Char) : List Char :=
  cs.dropWhile isJSONSpace

/-- The value of a hexadecimal digit. -/
def hexDigit (c : Char) : Option Nat :=
  let n := c.toNat
  if 48 ≤ n ∧ n ≤ 57 then some (n - 48)
  else if 97 ≤ n ∧ n ≤ 102 then some (n - 87)
  else if 65 ≤ n ∧ n ≤ 70 then some (n - 55)
  else none

/-- The four hexadecimal digits after a backslash and `u`. -/
def hex4 : List Char → Option (Nat × List Char)
  | a :: b :: c :: d :: rest =>
    match hexDigit a, hexDigit b, hexDigit c, hexDigit d with
    | some x, some y, some z, some t => some (((x * 16 + y) * 16 + z) * 16 + t, rest)
    | _, _, _, _ => none
  | _ => none

/-- The character of a one-letter escape. -/
def simpleEscape (c : Char) : Option Char :=
  match c.toNat with
  | 34 => some (Char.ofNat 34)
  | 92 => some (Char.ofNat 92)
  | 47 => some (Char.ofNat 47)
  | 98 => some (Char.ofNat 8)
  | 102 => some (Char.ofNat 12)
  | 110 => some (Char.ofNat 10)
  | 114 => some (Char.ofNat 13)
  | 116 => some (Char.ofNat 9)
  | _ => none

/-- Reads a string literal after its opening quote; `acc` holds the characters
read so far, last first.  A surrogate without its partner becomes U+FFFD. -/
def scanString : Nat → List Char → List Char → Option (String × List Char)
  | 0, _, _ => none
  | _ + 1, [], _ => none
  | fuel + 1, c :: cs, acc =>
    if c.toNat == 34 then some (⟨acc.reverse⟩, cs)
    else if c.toNat == 92 then
      match cs with
      | [] => none
      | e :: cs1 =>
        if e.toNat == 117 then
          match hex4 cs1 with
          | none => none
          | some (hi, cs2) =>
            if 55296 ≤ hi ∧ hi < 57344 then
              match cs2 with
              | b :: u :: cs3 =>
                match hex4 cs3 with
                | some (lo, cs4) =>
                  if b.toNat == 92 ∧ u.toNat == 117 ∧ hi < 56320 ∧ 56320 ≤ lo ∧ lo < 57344 then
                    scanString fuel cs4
                      (Char.ofNat ((hi - 55296) * 1024 + (lo - 56320) + 65536) :: acc)
                  else scanString fuel cs2 (Char.ofNat 65533 :: acc)
                | none => scanString fuel cs2 (Char.ofNat 65533 :: acc)
              | _ => scanString fuel cs2 (Char.ofNat 65533 :: acc)
            else scanString fuel cs2 (Char.ofNat hi :: acc)
        else
          match simpleEscape e with
          | none => none
          | some x => scanString fuel cs1 (x :: acc)
    else if c.toNat < 32 then none
    else scanString fuel cs (c :: acc)

def isDigit (c : Char) : Bool := 48 ≤ c.toNat && c.toNat ≤ 57

/-- One or more digits. -/
def scanDigits (cs : List Char) : Option (List Char × List Char) :=
  match cs.takeWhile isDigit with
  | [] => none
  | ds => some (ds, cs.dropWhile isDigit)

/-- Reads a number literal: sign, integer part, fraction, exponent. -/
def scanNumber (cs : List Char) : Option (String × List Char) :=
  let (sign, cs) : List Char × List Char :=
    match cs with
    | c :: rest => if c.toNat == 45 then ([c], rest) else ([], cs)
    | [] => ([], cs)
  match scanDigits cs with
  | none => none
  | some (int, cs) =>
    if int.length > 1 ∧ int.head?.map Char.toNat = some 48 then none
    else
      let frac : Option (List Char × List Char) :=
        match cs with
        | c :: rest =>
          if c.toNat == 46 then (scanDigits rest).map fun (ds, r) => (c :: ds, r)
          else some ([], cs)
        | [] => some ([], cs)
      match frac with
      | none => none
      | some (frac, cs) =>
        let exp : Option (List Char × List Char) :=
          match cs with
          | c :: rest =>
            if c.toNat == 101 ∨ c.toNat == 69 then
              match rest with
              | s :: rest1 =>
                if s.toNat == 43 ∨ s.toNat == 45 then
                  (scanDigits rest1).map fun (ds, r) => (c :: s :: ds, r)
                else (scanDigits rest).map fun (ds, r) => (c :: ds, r)
              | [] => none
            else some ([], cs)
          | [] => some ([], cs)
        match exp with
        | none => none
        | some (exp, cs) => some (⟨sign ++ int ++ frac ++ exp⟩, cs)

/-- Removes the characters of `word` from the front of the input. -/
def scanWord (word : String) (cs : List Char) : Option (List Char) :=
  if word.data.isPrefixOf cs then some (cs.drop word.length) else none

mutual
/-- Reads one JSON value; arrays and objects may nest 10000 deep. -/
def parseValue : Nat → Nat → List Char → Option (JSON × List Char)
  | 0, _, _ => none
  | fuel + 1, depth, cs =>
    match skipSpace cs with
    | [] => none
    | c :: rest =>
      if c.toNat == 123 then
        if depth ≥ 10000 then none
        else
          match skipSpace rest with
          | [] => none
          | d :: rest1 =>
            if d.toNat == 125 then some (.object [], rest1)
            else parseMembers fuel (depth + 1) (d :: rest1) []
      else if c.toNat == 91 then
        if depth ≥ 10000 then none
        else
          match skipSpace rest with
          | [] => none
          | d :: rest1 =>
            if d.toNat == 93 then some (.array [], rest1)
            else parseItems fuel (depth + 1) (d :: rest1) []
      else if c.toNat == 34 then
        (scanString (rest.length + 1) rest []).map fun (s, r) => (.string s, r)
      else if c.toNat == 116 then (scanWord "true" (c :: rest)).map fun r => (.bool true, r)
      else if c.toNat == 102 then (scanWord "false" (c :: rest)).map fun r => (.bool false, r)
      else if c.toNat == 110 then (scanWord "null" (c :: rest)).map fun r => (.null, r)
      else (scanNumber (c :: rest)).map fun (s, r) => (.number s, r)
/-- Reads the items of an array up to the closing bracket. -/
def parseItems : Nat → Nat → List Char → List JSON → Option (JSON × List Char)
  | 0, _, _, _ => none
  | fuel + 1, depth, cs, acc =>
    match parseValue fuel depth cs with
    | none => none
    | some (v, rest) =>
      match skipSpace rest with
      | [] => none
      | c :: rest1 =>
        if c.toNat == 44 then parseItems fuel depth rest1 (v :: acc)
        else if c.toNat == 93 then some (.array (v :: acc).reverse, rest1)
        else none
/-- Reads the members of an object up to the closing brace. -/
def parseMembers : Nat → Nat → List Char → List (String × JSON) → Option (JSON × List Char)
  | 0, _, _, _ => none
  | fuel + 1, depth, cs, acc =>
    match skipSpace cs with
    | [] => none
    | q :: rest =>
      if q.toNat == 34 then
        match scanString (rest.length + 1) rest [] with
        | none => none
        | some (key, rest1) =>
          match skipSpace rest1 with
          | [] => none
          | c :: rest2 =>
            if c.toNat == 58 then
              match parseValue fuel depth rest2 with
              | none => none
              | some (v, rest3) =>
                match skipSpace rest3 with
                | [] => none
                | d :: rest4 =>
                  if d.toNat == 44 then parseMembers fuel depth rest4 ((key, v) :: acc)
                  else if d.toNat == 125 then some (.object ((key, v) :: acc).reverse, rest4)
                  else none
            else none
      else none
end

/-- Reads a whole text as one JSON value; only white space may follow it. -/
def parseJSON (data : String) : Option JSON :=
  match parseValue (2 * data.length + 2) 0 data.data with
  | none => none
  | some (v, rest) => if skipSpace rest = [] then some v else none

/-- Key folding of `encoding/json`: letters compare without regard to case,
which puts U+017F with `s` and U+212A with `k`. -/
def foldKey (key : String) : String :=
  ⟨key.data.map fun c =>
    if 65 ≤ c.toNat ∧ c.toNat ≤ 90 then Char.ofNat (c.toNat + 32)
    else if c.toNat == 383 then Char.ofNat 115
    else if c.toNat == 8490 then Char.ofNat 107
    else c⟩

/-- The JSON kind named in a type error. -/
def JSON.kind : JSON → String
  | .null => "null"
  | .bool _ => "bool"
  | .number _ => "number"
  | .string _ => "string"
  | .array _ => "array"
  | .object _ => "object"

def typeError (v : JSON) (goType : String) : String :=
  "json: cannot unmarshal " ++ v.kind ++ " into Go value of type " ++ goType

/-- Stores a JSON value into a `string`. -/
def decodeString (old : String) : JSON → Except String String
  | .string s => .ok s
  | .null => .ok old
  | v => .error (typeError v "string")

/-- Stores a JSON value into a `ChatResponseV1ChoiceMessage`. -/
def decodeMessage (old : ChatResponseV1ChoiceMessage) :
    JSON → Except String ChatResponseV1ChoiceMessage
  | .object members =>
    members.foldlM (fun m kv =>
      if foldKey kv.1 = "content" then
        (decodeString m.Content kv.2).map fun s => { m with Content := s }
      else if foldKey kv.1 = "role" then
        (decodeString m.Role kv.2).map fun s => { m with Role := s }
      else .ok m) old
  | .null => .ok old
  | v => .error (typeError v "main.ChatResponseV1ChoiceMessage")

/-- Stores a JSON value into a `ChatResponseV1Choice`. -/
def decodeChoice (old : ChatResponseV1Choice) : JSON → Except String ChatResponseV1Choice
  | .object members =>
    members.foldlM (fun c kv =>
      if foldKey kv.1 = "message" then
        (decodeMessage c.Message kv.2).map fun m => { c with Message := m }
      else .ok c) old
  | .null => .ok old
  | v => .error (typeError v "main.ChatResponseV1Choice")

/-- Stores the items of a JSON array into a slice: item `i` goes into element
`i` when the slice has one, into a fresh element otherwise. -/
def decodeChoices : List ChatResponseV1Choice → List JSON →
    Except String (List ChatResponseV1Choice)
  | _, [] => .ok []
  | old, item :: items =>
    match decodeChoice (old.headD ⟨⟨"", ""⟩⟩) item with
    | .error err => .error err
    | .ok c => (decodeChoices old.tail items).map fun cs => c :: cs

/-- Stores a JSON value into a `ChatResponseV1`. -/
def decodeChatResponseV1 (old : ChatResponseV1) : JSON → Except String ChatResponseV1
  | .object members =>
    members.foldlM (fun r kv =>
      if foldKey kv.1 = "choices" then
        match kv.2 with
        | .array items => (decodeChoices r.Choices items).map fun cs => { r with Choices := cs }
        | .null => .ok { r with Choices := [] }
        | v => .error (typeError v "[]main.ChatResponseV1Choice")
      else .ok r) old
  | .null => .ok old
  | v => .error (typeError v "main.ChatResponseV1")

/-- Go `json.Unmarshal(data, &chatResponse)` on a zero `chatResponse`. -/
def jsonUnmarshal (data : String) : Except String ChatResponseV1 :=
  match parseJSON data with
  | none => .error "invalid character in JSON input"
  | some v => decodeChatResponseV1 ⟨[]⟩ v

/-- Four hexadecimal digits of a code point below 65536. -/
def hex4Of (n : Nat) : List Char :=
  [n / 4096 % 16, n / 256 % 16, n / 16 % 16, n % 16].map fun d =>
    if d < 10 then Char.ofNat (48 + d) else Char.ofNat (87 + d)

/-- One character inside a string literal written by `json.Marshal`: quote and
backslash get a backslash, line feed, carriage return and tab their letter, and
the other control characters, `<`, `>`, `&`, U+2028 and U+2029 the `u` form. -/
def escapeChar (c : Char) : List Char :=
  let n := c.toNat
  if n == 34 ∨ n == 92 then [Char.ofNat 92, c]
  else if n == 10 then [Char.ofNat 92, Char.ofNat 110]
  else if n == 13 then [Char.ofNat 92, Char.ofNat 114]
  else if n == 9 then [Char.ofNat 92, Char.ofNat 116]
  else if n < 32 ∨ n == 60 ∨ n == 62 ∨ n == 38 ∨ n == 8232 ∨ n == 8233 then
    [Char.ofNat 92, Char.ofNat 117] ++ hex4Of n
  else [c]

/-- A string literal written by `json.Marshal`. -/
def quote (s : String) : String :=
  "\"" ++ ⟨s.data.flatMap escapeChar⟩ ++ "\""

/-- Go `json.Marshal(requestBody)`: the keys of a map are written in sorted
order. -/
def jsonMarshal (body : RequestBody) : String :=
  "\x7b\"messages\":[" ++
    ",".intercalate (body.messages.map fun m =>
      "\x7b\"content\":" ++ quote m.content ++ ",\"role\":" ++ quote m.role ++ "\x7d") ++
    "],\"model\":" ++ quote body.model ++ ",\"temperature\":" ++ toString body.temperature ++
    "\x7d"

/-- A world with the JSON functions above, a request constructor that never
fails, and a simulated upstream. -/
def simulated (environ : Environ) (upstream : Request → Except String Response) : World :=
  { environ := environ
    Marshal := fun body => .ok (jsonMarshal body)
    NewRequest := fun method url body => .ok ⟨method, url, body, []⟩
    Do := upstream
    Unmarshal := jsonUnmarshal }

/-- An environment that holds the given variables and nothing else. -/
def environOf (vars : List (String × String)) : Environ :=
  fun key => (vars.find? fun kv => kv.1 == key).map Prod.snd

/-! ## Reading a trace -/

/-- The calls of `translateWithGPT` in a trace: text, target language, context. -/
def translateCalls (trace : List Event) : List (String × String × String) :=
  trace.filterMap fun
    | .translate text lang ctx => some (text, lang, ctx)
    | _ => none

/-- The request bodies handed to `json.Marshal` in a trace. -/
def marshalled (trace : List Event) : List RequestBody :=
  trace.filterMap fun
    | .jsonMarshal body => some body
    | _ => none

/-! ## Concrete inputs -/

/-- The response body of the specification's example. -/
def bonjourBody : String :=
  "\x7b\"choices\":[\x7b\"message\":\x7b\"content\":\"Bonjour\",\"role\":\"assistant\"\x7d\x7d]\x7d"

/-- A world with a key whose upstream answers every request with the given
status code and body. -/
def answering (StatusCode : Int) (body : String) : World :=
  simulated (environOf [("OPENAI_API_KEY", "sk-test")]) fun _ => .ok ⟨StatusCode, .ok body⟩

/-- A world with the given environment whose upstream answers with `bonjourBody`. -/
def bonjourWorld (vars : List (String × String)) : World :=
  simulated (environOf vars) fun _ => .ok ⟨200, .ok bonjourBody⟩

/-- A `readDotEnvIfAvailable` that finds no file. -/
def noDotEnv : Environ → Except String Environ :=
  fun environ => .ok environ

/-! ## Facts about `TrimSpace` -/

theorem dropWhile_head_not {α : Type} (p : α → Bool) (l : List α) (a : α) (t : List α)
    (h : l.dropWhile p = a :: t) : p a = false := by
  have hne : l.dropWhile p ≠ [] := by simp [h]
  have := List.head_dropWhile_not p l hne
  simpa [h] using this

theorem dropWhile_rdropWhile_dropWhile {α : Type} (p : α → Bool) (l : List α) :
    ((l.dropWhile p).rdropWhile p).dropWhile p = (l.dropWhile p).rdropWhile p := by
  obtain ⟨u, hu⟩ := List.rdropWhile_prefix p (l.dropWhile p)
  cases ht : (l.dropWhile p).rdropWhile p with
  | nil => rfl
  | cons a t =>
    rw [ht] at hu
    have ha : p a = false := dropWhile_head_not p l a (t ++ u) (by simpa using hu.symm)
    simp [List.dropWhile_cons, ha]

/-- Trimming twice is trimming once. -/
theorem TrimSpace_idem (s : String) : TrimSpace (TrimSpace s) = TrimSpace s := by
  apply String.ext
  simp only [TrimSpace]
  rw [dropWhile_rdropWhile_dropWhile, List.rdropWhile_idempotent]

/-! ## Facts about `translateWithGPT` -/

/-- With a key, `translateWithGPT` first hands the request body to
`json.Marshal`, and never again. -/
theorem marshalled_translateWithGPT (w : World) (t l c : String)
    (hkey : TrimSpace (Getenv w.environ "OPENAI_API_KEY") ≠ "") :
    marshalled (translateWithGPT w t l c).trace = [requestBody t l c] := by
  unfold translateWithGPT
  simp only [hkey, if_false]
  repeat' split
  all_goals rfl

/-! ## The prompt -/

/-- C1: when `translateWithGPT` gets as far as building its request (a key is
set), the request body holds exactly one user message, and its content contains
the text to translate and the target language as literal substrings: the text
is what follows the instruction and its colon, and the language follows
"translate the following text to ".  This holds for every text, blank or not,
every language and every context. -/
theorem C1_prompt_contains_text_and_language (w : World) (text lang ctx : String)
    (hkey : TrimSpace (Getenv w.environ "OPENAI_API_KEY") ≠ "") :
    ∃ content : String,
      marshalled (translateWithGPT w text lang ctx).trace =
        [{ model := "gpt-3.5-turbo-0125", messages := [⟨"user", content⟩], temperature := 0 }] ∧
      (∃ pre post, content = pre ++ text ++ post) ∧
      (∃ pre post, content = pre ++ lang ++ post) ∧
      (∃ instruction, content = instruction ++ ":" ++ text) ∧
      (∃ rest, content =
        "Your only job is to translate the following text to " ++ lang ++ rest) := by
  refine ⟨userMessageContent text lang ctx, marshalled_translateWithGPT w text lang ctx hkey,
    ?_, ?_, ?_, ?_⟩
  · exact ⟨_, "", (String.append_empty _).symm⟩
  · exact ⟨"Your only job is to translate the following text to ",
      " language by keeping its format without assumptions" ++ promptSuffix ctx ++ ":" ++ text,
      by simp only [userMessageContent, String.append_assoc]⟩
  · exact ⟨_, rfl⟩
  · exact ⟨" language by keeping its format without assumptions" ++ promptSuffix ctx ++
      ":" ++ text, by simp only [userMessageContent, String.append_assoc]⟩

/-- The theorem of C1 at concrete inputs. -/
theorem C1_witness :
    ∃ content : String,
      marshalled (translateWithGPT (answering 200 bonjourBody) "Hello" "french" "").trace =
        [{ model := "gpt-3.5-turbo-0125", messages := [⟨"user", content⟩], temperature := 0 }] ∧
      (∃ pre post, content = pre ++ "Hello" ++ post) ∧
      (∃ pre post, content = pre ++ "french" ++ post) ∧
      (∃ instruction, content = instruction ++ ":" ++ "Hello") ∧
      (∃ rest, content =
        "Your only job is to translate the following text to " ++ "french" ++ rest) :=
  C1_prompt_contains_text_and_language (answering 200 bonjourBody) "Hello" "french" ""
    (by decide)

/-- C2: for every context `c`, text `t` and language `l`, the prompt that
`translateWithGPT` builds is the fixed instruction around `l`, then `s`, a
colon and `t`, where `s` is empty when the trimmed context is empty and is the
trimmed context in parentheses after a space otherwise. -/
theorem C2_prompt_suffix (w : World) (c t l : String)
    (hkey : TrimSpace (Getenv w.environ "OPENAI_API_KEY") ≠ "") :
    marshalled (translateWithGPT w t l c).trace =
      [{ model := "gpt-3.5-turbo-0125"
         messages := [⟨"user",
           "Your only job is to translate the following text to " ++ l ++
           " language by keeping its format without assumptions" ++
           (if TrimSpace c = "" then "" else " (" ++ TrimSpace c ++ ")") ++ ":" ++ t⟩]
         temperature := 0 }] := by
  rw [marshalled_translateWithGPT w t l c hkey]
  by_cases h : TrimSpace c = "" <;> simp [requestBody, userMessageContent, promptSuffix, h]

/-- The theorem of C2 at concrete inputs. -/
theorem C2_witness :
    marshalled (translateWithGPT (answering 200 bonjourBody) "Hello" "french" " formal ").trace =
      [{ model := "gpt-3.5-turbo-0125"
         messages := [⟨"user",
           "Your only job is to translate the following text to " ++ "french" ++
           " language by keeping its format without assumptions" ++
           (if TrimSpace " formal " = "" then "" else " (" ++ TrimSpace " formal " ++ ")") ++
           ":" ++ "Hello"⟩]
         temperature := 0 }] ∧
    TrimSpace " formal " = "formal" :=
  ⟨C2_prompt_suffix (answering 200 bonjourBody) " formal " "Hello" "french" (by decide),
    by decide⟩

/-! ## Failing early -/

/-- C3: when the positional arguments joined by spaces, followed by the piped
input, trim to the empty string, `Run` prints "no valid text to translate",
exits with code 3, and its trace is empty: `translateWithGPT` is not called
and nothing is sent. -/
theorem C3_empty_text_exits_3 (w : World) (TGF_DEFAULT_LANGUAGE stdin : String) (vars : Vars)
    (args : List String) (h : TrimSpace (Join args " " ++ stdin) = "") :
    Run w TGF_DEFAULT_LANGUAGE stdin vars args =
      { exitCode := 3, stdout := "no valid text to translate\n", trace := [] } := by
  simp [Run, h]

/-- The theorem of C3 at concrete inputs. -/
theorem C3_witness :
    TrimSpace (Join [" ", ""] " " ++ "\n\t") = "" ∧
    Run (bonjourWorld [("OPENAI_API_KEY", "sk-test")]) "english" "\n\t" ⟨"", "french"⟩ [" ", ""] =
      { exitCode := 3, stdout := "no valid text to translate\n", trace := [] } :=
  ⟨by decide, C3_empty_text_exits_3 _ "english" "\n\t" ⟨"", "french"⟩ [" ", ""] (by decide)⟩

/-- C4: when `OPENAI_API_KEY` is unset, or set to a value that trims to the
empty string, `translateWithGPT` returns the empty string and the error
"missing OPENAI_API_KEY environment variable", and its trace is empty: no
request body was marshalled, no request built, none sent. -/
theorem C4_missing_key (w : World) (t l c : String)
    (h : w.environ "OPENAI_API_KEY" = none ∨
      ∃ v, w.environ "OPENAI_API_KEY" = some v ∧ TrimSpace v = "") :
    translateWithGPT w t l c =
      { result := .ret "" (some "missing OPENAI_API_KEY environment variable"), trace := [] } := by
  have hkey : TrimSpace (Getenv w.environ "OPENAI_API_KEY") = "" := by
    rcases h with h | ⟨v, hv, hblank⟩
    · rw [Getenv, h]; decide
    · rw [Getenv, hv]; exact hblank
  simp [translateWithGPT, hkey]

/-- The theorem of C4 at concrete inputs. -/
theorem C4_witness :
    translateWithGPT (bonjourWorld []) "Hello" "french" "" =
      { result := .ret "" (some "missing OPENAI_API_KEY environment variable"), trace := [] } ∧
    translateWithGPT (bonjourWorld [("OPENAI_API_KEY", " \t")]) "Hello" "french" "" =
      { result := .ret "" (some "missing OPENAI_API_KEY environment variable"), trace := [] } :=
  ⟨C4_missing_key (bonjourWorld []) "Hello" "french" "" (Or.inl (by decide)),
    C4_missing_key (bonjourWorld [("OPENAI_API_KEY", " \t")]) "Hello" "french" ""
      (Or.inr ⟨" \t", by decide, by decide⟩)⟩

/-! ## The upstream response -/

/-- C5: when the upstream answers with a status code other than 200,
`translateWithGPT` returns the empty string and the error "unexpected status
code n" with n the status code, whatever the response body is.  The trace ends
after the request was sent and the body closed: the body is neither read nor
parsed. -/
theorem C5_status_not_200 (w : World) (t l c jsonData : String) (request : Request)
    (response : Response)
    (hkey : TrimSpace (Getenv w.environ "OPENAI_API_KEY") ≠ "")
    (hm : w.Marshal (requestBody t l c) = .ok jsonData)
    (hn : w.NewRequest "POST" chatCompletionV1Url jsonData = .ok request)
    (hd : w.Do (authorize request (TrimSpace (Getenv w.environ "OPENAI_API_KEY"))) =
      .ok response)
    (hs : response.StatusCode ≠ 200) :
    (translateWithGPT w t l c).result =
      .ret "" (some ("unexpected status code " ++ toString response.StatusCode)) ∧
    (translateWithGPT w t l c).trace =
      [.jsonMarshal (requestBody t l c), .newRequest "POST" chatCompletionV1Url jsonData,
        .clientDo (authorize request (TrimSpace (Getenv w.environ "OPENAI_API_KEY"))),
        .bodyClose] ∧
    Event.readAll ∉ (translateWithGPT w t l c).trace ∧
    ∀ data, Event.jsonUnmarshal data ∉ (translateWithGPT w t l c).trace := by
  have h : translateWithGPT w t l c =
      ⟨.ret "" (some ("unexpected status code " ++ toString response.StatusCode)),
        [.jsonMarshal (requestBody t l c), .newRequest "POST" chatCompletionV1Url jsonData,
          .clientDo (authorize request (TrimSpace (Getenv w.environ "OPENAI_API_KEY"))),
          .bodyClose]⟩ := by
    simp [translateWithGPT, hkey, hm, hn, hd, hs]
  rw [h]
  simp

/-- The theorem of C5 at concrete inputs. -/
theorem C5_witness :
    (translateWithGPT (answering 500 bonjourBody) "Hello" "french" "").result =
      .ret "" (some "unexpected status code 500") ∧
    Event.readAll ∉ (translateWithGPT (answering 500 bonjourBody) "Hello" "french" "").trace :=
  have h := C5_status_not_200 (answering 500 bonjourBody) "Hello" "french" ""
    (jsonMarshal (requestBody "Hello" "french" ""))
    ⟨"POST", chatCompletionV1Url, jsonMarshal (requestBody "Hello" "french" ""), []⟩
    ⟨500, .ok bonjourBody⟩ (by decide) rfl rfl rfl (by decide)
  ⟨h.1, h.2.2.1⟩

/-- C6: when the upstream answers with status code 200 and a body that
`json.Unmarshal` turns into a `ChatResponseV1` with at least one choice,
`translateWithGPT` returns the message content of the first choice and no
error, whatever the other choices and the roles are. -/
theorem C6_first_choice (w : World) (t l c jsonData data : String) (request : Request)
    (response : Response) (chatResponse : ChatResponseV1) (choice : ChatResponseV1Choice)
    (others : List ChatResponseV1Choice)
    (hkey : TrimSpace (Getenv w.environ "OPENAI_API_KEY") ≠ "")
    (hm : w.Marshal (requestBody t l c) = .ok jsonData)
    (hn : w.NewRequest "POST" chatCompletionV1Url jsonData = .ok request)
    (hd : w.Do (authorize request (TrimSpace (Getenv w.environ "OPENAI_API_KEY"))) =
      .ok response)
    (hs : response.StatusCode = 200)
    (hb : response.Body = .ok data)
    (hu : w.Unmarshal data = .ok chatResponse)
    (hc : chatResponse.Choices = choice :: others) :
    (translateWithGPT w t l c).result = .ret choice.Message.Content none := by
  simp [translateWithGPT, hkey, hm, hn, hd, hs, hb, hu, hc]

/-- The theorem of C6 at concrete inputs. -/
theorem C6_witness :
    jsonUnmarshal bonjourBody = .ok ⟨[⟨⟨"Bonjour", "assistant"⟩⟩]⟩ ∧
    (translateWithGPT (answering 200 bonjourBody) "Hello" "french" "").result =
      .ret "Bonjour" none :=
  ⟨rfl, C6_first_choice (answering 200 bonjourBody) "Hello" "french" ""
    (jsonMarshal (requestBody "Hello" "french" "")) bonjourBody
    ⟨"POST", chatCompletionV1Url, jsonMarshal (requestBody "Hello" "french" ""), []⟩
    ⟨200, .ok bonjourBody⟩ ⟨[⟨⟨"Bonjour", "assistant"⟩⟩]⟩ ⟨⟨"Bonjour", "assistant"⟩⟩ []
    (by decide) rfl rfl rfl rfl rfl rfl rfl⟩

/-- C10: when the upstream answers with status code 200 and a body that
`json.Unmarshal` turns into a `ChatResponseV1` without choices, the lookup of
choice 0 finds nothing and `translateWithGPT` ends in the index-out-of-range
panic: it returns neither a text nor an error. -/
theorem C10_empty_choices_panic (w : World) (t l c jsonData data : String)
    (request : Request) (response : Response) (chatResponse : ChatResponseV1)
    (hkey : TrimSpace (Getenv w.environ "OPENAI_API_KEY") ≠ "")
    (hm : w.Marshal (requestBody t l c) = .ok jsonData)
    (hn : w.NewRequest "POST" chatCompletionV1Url jsonData = .ok request)
    (hd : w.Do (authorize request (TrimSpace (Getenv w.environ "OPENAI_API_KEY"))) =
      .ok response)
    (hs : response.StatusCode = 200)
    (hb : response.Body = .ok data)
    (hu : w.Unmarshal data = .ok chatResponse)
    (hc : chatResponse.Choices = []) :
    chatResponse.Choices[0]? = none ∧
    (translateWithGPT w t l c).result = .panic (indexOutOfRange 0 0) ∧
    ∀ value err, (translateWithGPT w t l c).result ≠ .ret value err := by
  have h : (translateWithGPT w t l c).result = .panic (indexOutOfRange 0 0) := by
    simp [translateWithGPT, hkey, hm, hn, hd, hs, hb, hu, hc]
  refine ⟨by simp [hc], h, ?_⟩
  intro value err
  rw [h]
  exact Returned.noConfusion

/-- The theorem of C10 at concrete inputs. -/
theorem C10_witness :
    (jsonUnmarshal "\x7b\x7d" = .ok ⟨[]⟩ ∧
      (translateWithGPT (answering 200 "\x7b\x7d") "Hello" "french" "").result =
        .panic "runtime error: index out of range [0] with length 0") ∧
    (jsonUnmarshal "\x7b\"choices\":[]\x7d" = .ok ⟨[]⟩ ∧
      (translateWithGPT (answering 200 "\x7b\"choices\":[]\x7d") "Hello" "french" "").result =
        .panic "runtime error: index out of range [0] with length 0") :=
  ⟨⟨rfl, (C10_empty_choices_panic (answering 200 "\x7b\x7d") "Hello" "french" ""
      (jsonMarshal (requestBody "Hello" "french" "")) "\x7b\x7d"
      ⟨"POST", chatCompletionV1Url, jsonMarshal (requestBody "Hello" "french" ""), []⟩
      ⟨200, .ok "\x7b\x7d"⟩ ⟨[]⟩ (by decide) rfl rfl rfl rfl rfl rfl rfl).2.1⟩,
    ⟨rfl, (C10_empty_choices_panic (answering 200 "\x7b\"choices\":[]\x7d") "Hello" "french" ""
      (jsonMarshal (requestBody "Hello" "french" "")) "\x7b\"choices\":[]\x7d"
      ⟨"POST", chatCompletionV1Url, jsonMarshal (requestBody "Hello" "french" ""), []⟩
      ⟨200, .ok "\x7b\"choices\":[]\x7d"⟩ ⟨[]⟩ (by decide) rfl rfl rfl rfl rfl rfl rfl).2.1⟩⟩

/-! ## From the command line to the call -/

/-- The trace of `translateWithGPT` holds no further call of it. -/
theorem translateCalls_translateWithGPT (w : World) (t l c : String) :
    translateCalls (translateWithGPT w t l c).trace = [] := by
  unfold translateWithGPT
  simp only []
  repeat' split
  all_goals rfl

/-- A call of `translateWithGPT` in a trace is listed by `translateCalls`. -/
theorem mem_translateCalls (trace : List Event) (t l c : String) :
    Event.translate t l c ∈ trace ↔ (t, l, c) ∈ translateCalls trace := by
  simp only [translateCalls, List.mem_filterMap]
  constructor
  · intro h
    exact ⟨_, h, rfl⟩
  · rintro ⟨e, he, heq⟩
    cases e <;> simp at heq
    obtain ⟨rfl, rfl, rfl⟩ := heq
    exact he

/-- With text that is not blank, `Run` calls `translateWithGPT` once, with the
joined text, the resolved language and the `context` variable. -/
theorem translateCalls_Run (w : World) (TGF_DEFAULT_LANGUAGE stdin : String) (vars : Vars)
    (args : List String) (h : TrimSpace (Join args " " ++ stdin) ≠ "") :
    translateCalls (Run w TGF_DEFAULT_LANGUAGE stdin vars args).trace =
      [(Join args " " ++ stdin,
        if TrimSpace vars.language = "" then TGF_DEFAULT_LANGUAGE else TrimSpace vars.language,
        vars.context)] := by
  have hcalls := translateCalls_translateWithGPT w (Join args " " ++ stdin)
    (if TrimSpace vars.language = "" then TGF_DEFAULT_LANGUAGE else TrimSpace vars.language)
    vars.context
  simp only [Run, String.empty_append, h, if_false]
  split <;> simp only [translateCalls, List.filterMap_cons] <;> simpa [translateCalls] using hcalls

/-- With text that is not blank, the request bodies of `Run` are those of its
call of `translateWithGPT`. -/
theorem marshalled_Run (w : World) (TGF_DEFAULT_LANGUAGE stdin : String) (vars : Vars)
    (args : List String) (h : TrimSpace (Join args " " ++ stdin) ≠ "") :
    marshalled (Run w TGF_DEFAULT_LANGUAGE stdin vars args).trace =
      marshalled (translateWithGPT w (Join args " " ++ stdin)
        (if TrimSpace vars.language = "" then TGF_DEFAULT_LANGUAGE else TrimSpace vars.language)
        vars.context).trace := by
  simp only [Run, String.empty_append, h, if_false]
  split <;> simp [marshalled]

/-- With blank text the trace of `Run` is empty. -/
theorem trace_Run_blank (w : World) (TGF_DEFAULT_LANGUAGE stdin : String) (vars : Vars)
    (args : List String) (h : TrimSpace (Join args " " ++ stdin) = "") :
    (Run w TGF_DEFAULT_LANGUAGE stdin vars args).trace = [] := by
  simp [Run, h]

/-- No flag writes the `context` variable. -/
theorem context_foldl_setFlag (flags : List (FlagName × String)) (vars : Vars) :
    (flags.foldl setFlag vars).context = vars.context := by
  induction flags generalizing vars with
  | nil => rfl
  | cons flag flags ih =>
    rw [List.foldl_cons, ih]
    rcases flag with ⟨_ | _, value⟩ <;> rfl

/-- The default language that `main` computes is not blank. -/
theorem default_language_not_blank (e : String) :
    TrimSpace (if TrimSpace e = "" then "english" else TrimSpace e) ≠ "" := by
  split
  · decide
  · rwa [TrimSpace_idem]

/-- The target language that `Run` computes from a default that is not blank is
not blank. -/
theorem target_language_not_blank (language dflt : String) (h : TrimSpace dflt ≠ "") :
    TrimSpace (if TrimSpace language = "" then dflt else TrimSpace language) ≠ "" := by
  split
  · exact h
  · rwa [TrimSpace_idem]

/-- Without a key the trace of `translateWithGPT` is empty. -/
theorem trace_translateWithGPT_no_key (w : World) (t l c : String)
    (hkey : TrimSpace (Getenv w.environ "OPENAI_API_KEY") = "") :
    (translateWithGPT w t l c).trace = [] := by
  simp [translateWithGPT, hkey]

/-- The request bodies of `translateWithGPT` called with an empty context carry
the instruction, a colon and the text, with nothing in parentheses between. -/
theorem marshalled_translateWithGPT_no_context (w : World) (t l : String) (body : RequestBody)
    (h : body ∈ marshalled (translateWithGPT w t l "").trace) :
    body.messages =
      [⟨"user", "Your only job is to translate the following text to " ++ l ++
        " language by keeping its format without assumptions" ++ ":" ++ t⟩] := by
  by_cases hkey : TrimSpace (Getenv w.environ "OPENAI_API_KEY") = ""
  · rw [trace_translateWithGPT_no_key w t l "" hkey] at h
    simp [marshalled] at h
  · rw [marshalled_translateWithGPT w t l "" hkey, List.mem_singleton] at h
    subst h
    have hs : promptSuffix "" = "" := by decide
    simp [requestBody, userMessageContent, hs]

/-- C7: with the `--language` flag given as `f` or absent (an absent flag
leaves the variable empty), and `e` the value of `TGF_DEFAULT_LANGUAGE` once
the environment file was read, the target language handed to
`translateWithGPT` is `f` trimmed when that is not empty, else `e` trimmed when
that is not empty, else "english". -/
theorem C7_target_language_resolution (w : World)
    (readDotEnvIfAvailable : Environ → Except String Environ) (environ : Environ)
    (stdin : String) (flag : Option String) (args : List String)
    (hdot : readDotEnvIfAvailable w.environ = .ok environ)
    (htext : TrimSpace (Join args " " ++ stdin) ≠ "") :
    translateCalls (main w readDotEnvIfAvailable stdin
        (.run (flag.map fun f => (FlagName.language, f)).toList args)).trace =
      [(Join args " " ++ stdin,
        if TrimSpace (flag.getD "") ≠ "" then TrimSpace (flag.getD "")
        else if TrimSpace (Getenv environ "TGF_DEFAULT_LANGUAGE") ≠ "" then
          TrimSpace (Getenv environ "TGF_DEFAULT_LANGUAGE")
        else "english",
        "")] := by
  simp only [main, hdot]
  rw [translateCalls_Run _ _ _ _ _ htext, context_foldl_setFlag]
  cases flag with
  | none =>
    have he : TrimSpace "" = "" := by decide
    by_cases h : TrimSpace (Getenv environ "TGF_DEFAULT_LANGUAGE") = "" <;>
      simp [he, h]
  | some f =>
    by_cases h : TrimSpace f = "" <;>
      by_cases h2 : TrimSpace (Getenv environ "TGF_DEFAULT_LANGUAGE") = "" <;>
        simp [setFlag, h, h2]

/-- The theorem of C7 at concrete inputs. -/
theorem C7_witness :
    translateCalls (main (bonjourWorld [("TGF_DEFAULT_LANGUAGE", "spanish")]) noDotEnv ""
        (.run [(.language, "french")] ["Hello"])).trace = [("Hello", "french", "")] ∧
    translateCalls (main (bonjourWorld []) noDotEnv ""
        (.run [] ["Hello"])).trace = [("Hello", "english", "")] :=
  ⟨C7_target_language_resolution (bonjourWorld [("TGF_DEFAULT_LANGUAGE", "spanish")]) noDotEnv
      (environOf [("TGF_DEFAULT_LANGUAGE", "spanish")]) "" (some "french") ["Hello"] rfl
      (by decide),
    C7_target_language_resolution (bonjourWorld []) noDotEnv (environOf []) "" none ["Hello"]
      rfl (by decide)⟩

/-- C8: wherever `main` calls `translateWithGPT`, whatever the flags, the
environment, the arguments and the piped input are, the text handed over is
not blank and the target language handed over is not blank. -/
theorem C8_request_not_blank (w : World)
    (readDotEnvIfAvailable : Environ → Except String Environ) (stdin : String)
    (parsed : Parsed) (text lang ctx : String)
    (h : Event.translate text lang ctx ∈ (main w readDotEnvIfAvailable stdin parsed).trace) :
    TrimSpace text ≠ "" ∧ TrimSpace lang ≠ "" := by
  rw [mem_translateCalls] at h
  unfold main at h
  cases hdot : readDotEnvIfAvailable w.environ with
  | error err => simp [hdot, translateCalls] at h
  | ok environ =>
    simp only [hdot] at h
    cases parsed with
    | error err => simp [translateCalls] at h
    | noRun output => simp [translateCalls] at h
    | run flags args =>
      simp only [] at h
      by_cases htext : TrimSpace (Join args " " ++ stdin) = ""
      · rw [trace_Run_blank _ _ _ _ _ htext] at h
        simp [translateCalls] at h
      · rw [translateCalls_Run _ _ _ _ _ htext, List.mem_singleton] at h
        simp only [Prod.mk.injEq] at h
        obtain ⟨rfl, rfl, -⟩ := h
        exact ⟨htext, target_language_not_blank _ _ (default_language_not_blank _)⟩

/-- The theorem of C8 at concrete inputs. -/
theorem C8_witness :
    Event.translate "a bHello" "german" "" ∈
      (main (bonjourWorld [("OPENAI_API_KEY", "sk-test")]) noDotEnv "Hello"
        (.run [(.language, " german ")] ["a", "b"])).trace ∧
    TrimSpace "a bHello" ≠ "" ∧ TrimSpace "german" ≠ "" :=
  ⟨by decide, C8_request_not_blank (bonjourWorld [("OPENAI_API_KEY", "sk-test")]) noDotEnv
    "Hello" (.run [(.language, " german ")] ["a", "b"]) "a bHello" "german" "" (by decide)⟩

/-- C9: the `--context` flag is stored in the variable of the `--language`
flag.  A command line whose only flag is `--context v`, with `v` not blank,
makes `v` trimmed the target language.  On every command line the context
handed to `translateWithGPT` is the empty string, and every request body that
is built carries the instruction, a colon and the text, with no context in
parentheses. -/
theorem C9_context_flag_sets_language (w : World)
    (readDotEnvIfAvailable : Environ → Except String Environ) (stdin : String) :
    (∀ (environ : Environ) (v : String) (args : List String),
      readDotEnvIfAvailable w.environ = .ok environ → TrimSpace v ≠ "" →
      TrimSpace (Join args " " ++ stdin) ≠ "" →
      translateCalls (main w readDotEnvIfAvailable stdin
          (.run [(.context, v)] args)).trace =
        [(Join args " " ++ stdin, TrimSpace v, "")]) ∧
    (∀ (parsed : Parsed) (text lang ctx : String),
      Event.translate text lang ctx ∈ (main w readDotEnvIfAvailable stdin parsed).trace →
      ctx = "") ∧
    (∀ (parsed : Parsed) (body : RequestBody),
      body ∈ marshalled (main w readDotEnvIfAvailable stdin parsed).trace →
      ∃ text lang, body.messages =
        [⟨"user", "Your only job is to translate the following text to " ++ lang ++
          " language by keeping its format without assumptions" ++ ":" ++ text⟩]) := by
  refine ⟨?_, ?_, ?_⟩
  · intro environ v args hdot hv htext
    simp only [main, hdot]
    rw [translateCalls_Run _ _ _ _ _ htext]
    simp [setFlag, hv]
  · intro parsed text lang ctx h
    rw [mem_translateCalls] at h
    unfold main at h
    cases hdot : readDotEnvIfAvailable w.environ with
    | error err => simp [hdot, translateCalls] at h
    | ok environ =>
      simp only [hdot] at h
      cases parsed with
      | error err => simp [translateCalls] at h
      | noRun output => simp [translateCalls] at h
      | run flags args =>
        simp only [] at h
        by_cases htext : TrimSpace (Join args " " ++ stdin) = ""
        · rw [trace_Run_blank _ _ _ _ _ htext] at h
          simp [translateCalls] at h
        · rw [translateCalls_Run _ _ _ _ _ htext, List.mem_singleton,
            context_foldl_setFlag] at h
          simp only [Prod.mk.injEq] at h
          exact h.2.2
  · intro parsed body h
    unfold main at h
    cases hdot : readDotEnvIfAvailable w.environ with
    | error err => simp [hdot, marshalled] at h
    | ok environ =>
      simp only [hdot] at h
      cases parsed with
      | error err => simp [marshalled] at h
      | noRun output => simp [marshalled] at h
      | run flags args =>
        simp only [] at h
        by_cases htext : TrimSpace (Join args " " ++ stdin) = ""
        · rw [trace_Run_blank _ _ _ _ _ htext] at h
          simp [marshalled] at h
        · rw [marshalled_Run _ _ _ _ _ htext, context_foldl_setFlag] at h
          exact ⟨_, _, marshalled_translateWithGPT_no_context _ _ _ body h⟩

/-- The theorem of C9 at concrete inputs. -/
theorem C9_witness :
    translateCalls (main (bonjourWorld [("OPENAI_API_KEY", "sk-test")]) noDotEnv ""
        (.run [(.context, " formal ")] ["Hello"])).trace = [("Hello", "formal", "")] :=
  (C9_context_flag_sets_language (bonjourWorld [("OPENAI_API_KEY", "sk-test")]) noDotEnv "").1
    (environOf [("OPENAI_API_KEY", "sk-test")]) " formal " ["Hello"] rfl (by decide) (by decide)

end TGF
